import Mathlib

/-!
Verification of the task scheduling and persistence core of the
`personal_dashboard` repository: `dashboard/core/task.py`
(`compute_next_run`, `upsert_task_schedule`, `get_next_run_from_db`,
`update_after_run`, `BaseTask.ensure_scheduled`) and
`dashboard/core/task_manager.py` (`TaskManager.schedule_task`,
`schedule_registered_task`, `_run_registered_and_reschedule`,
`get_active_timers`).

The Python code works exclusively with *naive UTC* `datetime` values
(`datetime.now(timezone.utc).replace(tzinfo=None)`), whole-second
`timedelta`s, `datetime.replace` (which validates the resulting fields and
raises `ValueError` on an invalid combination, e.g. day 31 in February),
and chronological comparison of naive datetimes.  The model below embeds
exactly that fragment of `datetime` semantics over a proleptic Gregorian
calendar, unbounded above (Python's year-9999 cap is not modelled; the
year-1 lower bound is: arithmetic that would fall before year 1 yields
`none`, standing for the exception Python would raise).
-/

/-- Gregorian leap-year rule (as used by Python's `datetime`). -/
def isLeapYear (y : Nat) : Bool :=
  (y % 4 == 0 && y % 100 != 0) || y % 400 == 0

/-- Length of month `m` (1..12) of year `y`, in days. -/
def daysInMonth (y m : Nat) : Nat :=
  if m = 2 then (if isLeapYear y then 29 else 28)
  else if m = 4 ∨ m = 6 ∨ m = 9 ∨ m = 11 then 30
  else 31

/-- Length of year `y` in days. -/
def daysInYear (y : Nat) : Nat :=
  if isLeapYear y then 366 else 365

/-- Number of days in the months of year `y` strictly before month `m`
(tabulated; the leap day shifts every month from March on). -/
def daysBeforeMonth (y m : Nat) : Nat :=
  (match m with
   | 0 => 0 | 1 => 0 | 2 => 31 | 3 => 59 | 4 => 90 | 5 => 120 | 6 => 151
   | 7 => 181 | 8 => 212 | 9 => 243 | 10 => 273 | 11 => 304 | _ => 334)
  + (if 3 ≤ m ∧ isLeapYear y then 1 else 0)

/-- Number of days in the years strictly before year `y` (epoch: year 1),
in closed form (`365·n + n/4 + n/400 − n/100` for `n = y − 1`). -/
def daysBeforeYear (y : Nat) : Nat :=
  365 * (y - 1) + (y - 1) / 4 + (y - 1) / 400 - (y - 1) / 100

/-- Days since 0001-01-01 of the date `(y, m, d)` (Python `toordinal() - 1`). -/
def dateToDays (y m d : Nat) : Nat :=
  daysBeforeYear y + daysBeforeMonth y m + (d - 1)

/-- Split a day count (since 0001-01-01) into year and day-of-year, starting
the search at year `y`; fuel-driven so that the kernel can evaluate it. -/
def yearOfDaysAux : Nat → Nat → Nat → Nat × Nat
  | 0, y, d => (y, d)
  | fuel + 1, y, d =>
    if d < daysInYear y then (y, d) else yearOfDaysAux fuel (y + 1) (d - daysInYear y)

/-- Split a day-of-year into month and day-of-month (both 0-based in, the
day-of-month result is 0-based), starting at month `m`. -/
def monthOfDaysAux : Nat → Nat → Nat → Nat → Nat × Nat
  | 0, _, m, d => (m, d)
  | fuel + 1, y, m, d =>
    if 12 ≤ m then (m, d)
    else if d < daysInMonth y m then (m, d)
    else monthOfDaysAux fuel y (m + 1) (d - daysInMonth y m)

/-- Split a day count into year and day-of-year: skip whole 400-year eras
(146097 days each), then walk the remaining years. -/
def yearOfDays (d : Nat) : Nat × Nat :=
  yearOfDaysAux (d % 146097 + 1) (400 * (d / 146097) + 1) (d % 146097)

/-- Convert a day count since 0001-01-01 to a calendar date `(y, m, d)`. -/
def daysToDate (n : Nat) : Nat × Nat × Nat :=
  ((yearOfDays n).1,
   (monthOfDaysAux 12 (yearOfDays n).1 1 (yearOfDays n).2).1,
   (monthOfDaysAux 12 (yearOfDays n).1 1 (yearOfDays n).2).2 + 1)

/-- A naive `datetime` value, field for field. -/
structure PyDateTime where
  year : Nat
  month : Nat
  day : Nat
  hour : Nat
  minute : Nat
  second : Nat
  microsecond : Nat
deriving DecidableEq

/-- The field constraints `datetime.__new__` enforces (with the year-9999
upper bound idealized away). -/
def PyDateTime.isValid (t : PyDateTime) : Bool :=
  1 ≤ t.year && 1 ≤ t.month && t.month ≤ 12 && 1 ≤ t.day &&
    t.day ≤ daysInMonth t.year t.month &&
    t.hour < 24 && t.minute < 60 && t.second < 60 && t.microsecond < 1000000

def PyDateTime.Valid (t : PyDateTime) : Prop := t.isValid = true

instance PyDateTime.decValid (t : PyDateTime) : Decidable t.Valid :=
  inferInstanceAs (Decidable (t.isValid = true))

/-- Whole seconds since 0001-01-01T00:00:00 (ignoring the microsecond field). -/
def PyDateTime.toSeconds (t : PyDateTime) : Nat :=
  dateToDays t.year t.month t.day * 86400 + t.hour * 3600 + t.minute * 60 + t.second

/-- Microseconds since 0001-01-01T00:00:00; Python's chronological order and
equality on naive datetimes coincide with the order of this value on valid
datetimes. -/
def PyDateTime.toMicros (t : PyDateTime) : Nat :=
  t.toSeconds * 1000000 + t.microsecond

/-- Chronological `<=` on naive datetimes (Python `dt1 <= dt2`). -/
def pyLe (a b : PyDateTime) : Bool := a.toMicros ≤ b.toMicros

/-- Rebuild a datetime from whole seconds since the epoch plus a microsecond
field. -/
def dateTimeOfSeconds (n : Nat) (us : Nat) : PyDateTime :=
  let ymd := daysToDate (n / 86400)
  let r := n % 86400
  ⟨ymd.1, ymd.2.1, ymd.2.2, r / 3600, r % 3600 / 60, r % 60, us⟩

/-- `t + timedelta(seconds=k)` for whole-second `timedelta`s (the only kind
the scheduler uses: `days=1` is `86400`, `hours=1` is `3600`).  `none` models
the `OverflowError` Python raises when the result falls before year 1. -/
def pyAddSeconds (t : PyDateTime) (k : Int) : Option PyDateTime :=
  if (t.toSeconds : Int) + k < 0 then none
  else some (dateTimeOfSeconds ((t.toSeconds : Int) + k).toNat t.microsecond)

/-- The validating datetime constructor: `datetime(...)` / the constructor
call hidden inside `datetime.replace(...)`.  Returns `none` exactly when
Python raises `ValueError` (e.g. `day=31` in February, `hour=25`, `day=0`). -/
def mkValid (year month day hour minute second microsecond : Int) : Option PyDateTime :=
  if 1 ≤ year && 1 ≤ month && month ≤ 12 && 1 ≤ day &&
      day ≤ (daysInMonth year.toNat month.toNat : Int) &&
      0 ≤ hour && hour < 24 && 0 ≤ minute && minute < 60 &&
      0 ≤ second && second < 60 && 0 ≤ microsecond && microsecond < 1000000
  then some ⟨year.toNat, month.toNat, day.toNat, hour.toNat, minute.toNat,
             second.toNat, microsecond.toNat⟩
  else none

/-- `t.replace(hour=hour, minute=minute, second=0, microsecond=0)`. -/
def PyDateTime.replaceTime (t : PyDateTime) (hour minute : Int) : Option PyDateTime :=
  mkValid t.year t.month t.day hour minute 0 0

/-- `t.replace(day=day, hour=hour, minute=minute, second=0, microsecond=0)`. -/
def PyDateTime.replaceDayTime (t : PyDateTime) (day hour minute : Int) : Option PyDateTime :=
  mkValid t.year t.month day hour minute 0 0

/-- `t.replace(year=year, month=month)` (re-validates the existing day
against the new month, as Python does). -/
def PyDateTime.replaceYearMonth (t : PyDateTime) (year month : Nat) : Option PyDateTime :=
  mkValid year month t.day t.hour t.minute t.second t.microsecond

/-! ## Calendar lemmas -/

theorem daysInYear_ge (y : Nat) : 365 ≤ daysInYear y := by
  unfold daysInYear; split <;> omega

set_option maxHeartbeats 1000000 in
theorem daysBeforeYear_succ (y : Nat) (hy : 1 ≤ y) :
    daysBeforeYear (y + 1) = daysBeforeYear y + daysInYear y := by
  unfold daysBeforeYear daysInYear isLeapYear
  split
  · rename_i h
    simp only [Bool.or_eq_true, Bool.and_eq_true, beq_iff_eq, bne_iff_ne, ne_eq] at h
    omega
  · rename_i h
    simp only [Bool.not_eq_true, Bool.or_eq_false_iff, Bool.and_eq_false_iff,
      beq_eq_false_iff_ne, bne_eq_false_iff_eq, ne_eq] at h
    omega

theorem daysBeforeYear_era (e : Nat) : daysBeforeYear (400 * e + 1) = 146097 * e := by
  unfold daysBeforeYear
  omega

theorem daysBeforeMonth_succ (y m : Nat) (hm : 1 ≤ m) (hm' : m ≤ 11) :
    daysBeforeMonth y (m + 1) = daysBeforeMonth y m + daysInMonth y m := by
  interval_cases m <;>
    cases h : isLeapYear y <;>
      simp [daysBeforeMonth, daysInMonth, h]

theorem daysInYear_monthSum (y : Nat) :
    daysBeforeMonth y 12 + daysInMonth y 12 = daysInYear y := by
  cases h : isLeapYear y <;>
    simp [daysBeforeMonth, daysInMonth, daysInYear, h]

theorem yearOfDaysAux_spec : ∀ (fuel y d : Nat), 1 ≤ y → d < fuel →
    1 ≤ (yearOfDaysAux fuel y d).1 ∧
    (yearOfDaysAux fuel y d).2 < daysInYear (yearOfDaysAux fuel y d).1 ∧
    daysBeforeYear (yearOfDaysAux fuel y d).1 + (yearOfDaysAux fuel y d).2
      = daysBeforeYear y + d := by
  intro fuel
  induction fuel with
  | zero => intro y d _ hd; omega
  | succ f ih =>
    intro y d hy hd
    unfold yearOfDaysAux
    split
    · rename_i h
      exact ⟨hy, h, rfl⟩
    · rename_i h
      have h365 := daysInYear_ge y
      obtain ⟨h1, h2, h3⟩ := ih (y + 1) (d - daysInYear y) (by omega) (by omega)
      refine ⟨h1, h2, ?_⟩
      rw [h3, daysBeforeYear_succ y hy]
      omega

theorem monthOfDaysAux_spec : ∀ (fuel y m d : Nat), 1 ≤ m → m ≤ 12 → 13 ≤ fuel + m →
    daysBeforeMonth y m + d < daysInYear y →
    1 ≤ (monthOfDaysAux fuel y m d).1 ∧ (monthOfDaysAux fuel y m d).1 ≤ 12 ∧
    (monthOfDaysAux fuel y m d).2 < daysInMonth y (monthOfDaysAux fuel y m d).1 ∧
    daysBeforeMonth y (monthOfDaysAux fuel y m d).1 + (monthOfDaysAux fuel y m d).2
      = daysBeforeMonth y m + d := by
  intro fuel
  induction fuel with
  | zero => intro y m d h1 h2 h3 _; omega
  | succ f ih =>
    intro y m d h1 h2 h3 h4
    unfold monthOfDaysAux
    split
    · rename_i h12
      have hm12 : m = 12 := by omega
      subst hm12
      have hsum := daysInYear_monthSum y
      have hd : d < daysInMonth y 12 := by omega
      exact ⟨by omega, by omega, hd, rfl⟩
    · split
      · rename_i h12 hlt
        exact ⟨h1, h2, hlt, rfl⟩
      · rename_i h12 hge
        have hsucc := daysBeforeMonth_succ y m h1 (by omega)
        obtain ⟨g1, g2, g3, g4⟩ :=
          ih y (m + 1) (d - daysInMonth y m) (by omega) (by omega) (by omega) (by omega)
        exact ⟨g1, g2, g3, by omega⟩

theorem daysToDate_spec (n : Nat) :
    1 ≤ (daysToDate n).1 ∧ 1 ≤ (daysToDate n).2.1 ∧ (daysToDate n).2.1 ≤ 12 ∧
    1 ≤ (daysToDate n).2.2 ∧
    (daysToDate n).2.2 ≤ daysInMonth (daysToDate n).1 (daysToDate n).2.1 ∧
    dateToDays (daysToDate n).1 (daysToDate n).2.1 (daysToDate n).2.2 = n := by
  obtain ⟨h1, h2, h3⟩ :=
    yearOfDaysAux_spec (n % 146097 + 1) (400 * (n / 146097) + 1) (n % 146097)
      (by omega) (by omega)
  rw [daysBeforeYear_era] at h3
  have h1' : 1 ≤ (yearOfDays n).1 := h1
  have h2' : (yearOfDays n).2 < daysInYear (yearOfDays n).1 := h2
  have h3' : daysBeforeYear (yearOfDays n).1 + (yearOfDays n).2
      = 146097 * (n / 146097) + n % 146097 := h3
  have hb1 : daysBeforeMonth (yearOfDays n).1 1 = 0 := rfl
  obtain ⟨g1, g2, g3, g4⟩ :=
    monthOfDaysAux_spec 12 (yearOfDays n).1 1 (yearOfDays n).2
      (by omega) (by omega) (by omega) (by omega)
  refine ⟨h1', g1, g2, ?_, ?_, ?_⟩
  · show 1 ≤ (monthOfDaysAux 12 (yearOfDays n).1 1 (yearOfDays n).2).2 + 1
    omega
  · show (monthOfDaysAux 12 (yearOfDays n).1 1 (yearOfDays n).2).2 + 1 ≤
      daysInMonth (yearOfDays n).1 (monthOfDaysAux 12 (yearOfDays n).1 1 (yearOfDays n).2).1
    omega
  · show daysBeforeYear (yearOfDays n).1 +
      daysBeforeMonth (yearOfDays n).1 (monthOfDaysAux 12 (yearOfDays n).1 1 (yearOfDays n).2).1 +
      ((monthOfDaysAux 12 (yearOfDays n).1 1 (yearOfDays n).2).2 + 1 - 1) = n
    omega

/-! ## Datetime lemmas -/

theorem valid_bounds (t : PyDateTime) (h : t.Valid) :
    1 ≤ t.year ∧ 1 ≤ t.month ∧ t.month ≤ 12 ∧ 1 ≤ t.day ∧
    t.day ≤ daysInMonth t.year t.month ∧
    t.hour < 24 ∧ t.minute < 60 ∧ t.second < 60 ∧ t.microsecond < 1000000 := by
  unfold PyDateTime.Valid PyDateTime.isValid at h
  simp only [Bool.and_eq_true, decide_eq_true_eq] at h
  omega

theorem valid_of_bounds (t : PyDateTime)
    (h : 1 ≤ t.year ∧ 1 ≤ t.month ∧ t.month ≤ 12 ∧ 1 ≤ t.day ∧
      t.day ≤ daysInMonth t.year t.month ∧
      t.hour < 24 ∧ t.minute < 60 ∧ t.second < 60 ∧ t.microsecond < 1000000) :
    t.Valid := by
  unfold PyDateTime.Valid PyDateTime.isValid
  simp only [Bool.and_eq_true, decide_eq_true_eq]
  omega

theorem dateTimeOfSeconds_spec (n us : Nat) :
    (dateTimeOfSeconds n us).toSeconds = n ∧ (dateTimeOfSeconds n us).microsecond = us ∧
    (us < 1000000 → (dateTimeOfSeconds n us).Valid) := by
  obtain ⟨h1, h2, h3, h4, h5, h6⟩ := daysToDate_spec (n / 86400)
  unfold dateTimeOfSeconds PyDateTime.toSeconds
  refine ⟨?_, rfl, ?_⟩
  · simp only
    rw [h6]
    omega
  · intro hus
    apply valid_of_bounds
    simp only
    refine ⟨h1, h2, h3, h4, h5, ?_, ?_, ?_, hus⟩ <;> omega

theorem pyAddSeconds_spec (t : PyDateTime) (k : Int)
    (hk : 0 ≤ (t.toSeconds : Int) + k) :
    ∃ t', pyAddSeconds t k = some t' ∧
      (t'.toSeconds : Int) = (t.toSeconds : Int) + k ∧
      t'.microsecond = t.microsecond ∧
      (t.microsecond < 1000000 → t'.Valid) := by
  unfold pyAddSeconds
  rw [if_neg (by omega)]
  obtain ⟨h1, h2, h3⟩ := dateTimeOfSeconds_spec ((t.toSeconds : Int) + k).toNat t.microsecond
  exact ⟨_, rfl, by omega, h2, h3⟩

theorem toMicros_eq (t : PyDateTime) :
    t.toMicros = t.toSeconds * 1000000 + t.microsecond := rfl

theorem pyAddSeconds_toMicros (t t' : PyDateTime) (k : Int)
    (h : pyAddSeconds t k = some t') :
    (t'.toMicros : Int) = (t.toMicros : Int) + k * 1000000 := by
  unfold pyAddSeconds at h
  split at h
  · simp at h
  · rename_i hnn
    obtain ⟨h1, h2, _⟩ := dateTimeOfSeconds_spec ((t.toSeconds : Int) + k).toNat t.microsecond
    injection h with h
    subst h
    rw [toMicros_eq, toMicros_eq, h1, h2]
    omega

theorem toMicros_lt_of_date_lt (a b : PyDateTime) (ha : a.Valid)
    (hd : dateToDays a.year a.month a.day < dateToDays b.year b.month b.day) :
    a.toMicros < b.toMicros := by
  obtain ⟨_, _, _, _, _, hh, hm, hs, hus⟩ := valid_bounds a ha
  unfold PyDateTime.toMicros PyDateTime.toSeconds
  omega

theorem daysBeforeMonth_one (y : Nat) : daysBeforeMonth y 1 = 0 := rfl

/-- A datetime on the same calendar date as a valid `lr` is within one day of
it: `lr < that datetime + 24h`. -/
theorem toMicros_lt_add_day_same_date (lr nr : PyDateTime) (hv : lr.Valid)
    (hy : nr.year = lr.year) (hm : nr.month = lr.month) (hd : nr.day = lr.day) :
    lr.toMicros < nr.toMicros + 86400 * 1000000 := by
  obtain ⟨_, _, _, _, _, hh, hmi, hs, hus⟩ := valid_bounds lr hv
  unfold PyDateTime.toMicros PyDateTime.toSeconds
  rw [hy, hm, hd]
  omega

/-- December-to-January rollover: any datetime in January of the next year is
strictly after a valid December datetime. -/
theorem monthly_rollover_dec_lt (lr nr : PyDateTime) (hv : lr.Valid)
    (hy : nr.year = lr.year + 1) (hm : nr.month = 1) (hmo : lr.month = 12) :
    lr.toMicros < nr.toMicros := by
  apply toMicros_lt_of_date_lt lr nr hv
  obtain ⟨hy1, _, _, _, hdm, _, _, _, _⟩ := valid_bounds lr hv
  unfold dateToDays
  rw [hy, hm, hmo, daysBeforeMonth_one, daysBeforeYear_succ lr.year hy1]
  have hsum := daysInYear_monthSum lr.year
  rw [hmo] at hdm
  omega

/-- Plain month rollover: any datetime in the following month of the same
year is strictly after a valid datetime. -/
theorem monthly_rollover_succ_lt (lr nr : PyDateTime) (hv : lr.Valid)
    (hy : nr.year = lr.year) (hm : nr.month = lr.month + 1) (hmo : lr.month ≤ 11) :
    lr.toMicros < nr.toMicros := by
  apply toMicros_lt_of_date_lt lr nr hv
  obtain ⟨_, hm1, _, hd1, hdm, _, _, _, _⟩ := valid_bounds lr hv
  unfold dateToDays
  rw [hy, hm, daysBeforeMonth_succ lr.year lr.month hm1 hmo]
  omega

/-! ## `dashboard/core/task.py`: schedule kinds, config, `compute_next_run`

`schedule_config` is a JSON dict.  The code reads at most the keys `"time"`
(a `"HH:MM"` string), `"interval_seconds"` and `"day"` (numbers, passed
through `int(...)`), each with an in-code default, and tests the dict for
truthiness (`if schedule_type == ... and schedule_config:`).  The model
keeps the three relevant entries (`none` = key absent) plus a flag for the
presence of any further keys, which only influences truthiness; numeric
values are modelled as the integers `int(...)` yields. -/

namespace TaskType

def DAILY : String := "daily"

def HOURLY : String := "hourly"

def INTERVAL_SECONDS : String := "interval_seconds"

def MONTHLY : String := "monthly"

end TaskType

structure ScheduleConfig where
  time : Option String
  interval_seconds : Option Int
  day : Option Int
  has_other_keys : Bool
deriving DecidableEq

/-- The empty dict `{}`. -/
def emptyConfig : ScheduleConfig := ⟨none, none, none, false⟩

/-- Python truthiness of the `schedule_config` value (`None` and `{}` are
falsy, any non-empty dict is truthy). -/
def configTruthy : Option ScheduleConfig → Bool
  | none => false
  | some c => c.time.isSome || c.interval_seconds.isSome || c.day.isSome || c.has_other_keys

/-- `schedule_config.get("time", "00:00")` (read only under a truthy config,
so the `none` case is never reached by the callers). -/
def cfgTime : Option ScheduleConfig → String
  | none => "00:00"
  | some c => c.time.getD "00:00"

/-- `int(schedule_config.get("interval_seconds", 86400))`. -/
def cfgIntervalSeconds : Option ScheduleConfig → Int
  | none => 86400
  | some c => c.interval_seconds.getD 86400

/-- `int(schedule_config.get("day", 1))`. -/
def cfgDay : Option ScheduleConfig → Int
  | none => 1
  | some c => c.day.getD 1

/-- ASCII whitespace, for `str.strip()` / the stripping `int()` performs.
(Python also strips other Unicode whitespace; irrelevant for `"HH:MM"`.) -/
def isPySpace (c : Char) : Bool := c = ' ' || c = '\t' || c = '\n' || c = '\r'

/-- `s.strip()` on the character list of a string. -/
def pyStrip (l : List Char) : List Char :=
  ((l.dropWhile isPySpace).reverse.dropWhile isPySpace).reverse

/-- `s.split(sep)` for a one-character separator: splits at every occurrence,
keeping empty segments; never returns an empty list (`"".split(":") == [""]`). -/
def splitOnChar (sep : Char) : List Char → List (List Char)
  | [] => [[]]
  | c :: rest =>
    let r := splitOnChar sep rest
    if c = sep then [] :: r
    else
      match r with
      | [] => [[c]]
      | seg :: segs => (c :: seg) :: segs

/-- Digit-string accumulator for `int(...)`. -/
def parseDigitsAux : List Char → Nat → Option Nat
  | [], acc => some acc
  | c :: rest, acc =>
    if '0' ≤ c && c ≤ '9' then parseDigitsAux rest (acc * 10 + (c.toNat - '0'.toNat))
    else none

/-- `int(s)` on a string: strips surrounding whitespace, allows one sign,
then requires decimal digits; `none` models the `ValueError` on anything
else.  (Underscore digit separators, which Python also accepts, are not
modelled.) -/
def pyIntOfChars (l : List Char) : Option Int :=
  match pyStrip l with
  | [] => none
  | '-' :: rest => if rest = [] then none else (parseDigitsAux rest 0).map (fun n => -(n : Int))
  | '+' :: rest => if rest = [] then none else (parseDigitsAux rest 0).map (fun n => (n : Int))
  | l' => (parseDigitsAux l' 0).map (fun n => (n : Int))

/-- The time-string handling shared by the Daily and Monthly branches:
`parts = str(t).strip().split(":"); hour = int(parts[0]) if parts else 0;
minute = int(parts[1]) if len(parts) > 1 else 0`.  (`split` never returns an
empty list, so `hour` always comes from `parts[0]`.) -/
def parseHourMinute (timeStr : String) : Option (Int × Int) :=
  match splitOnChar ':' (pyStrip timeStr.data) with
  | [] => some (0, 0)
  | [p0] => (pyIntOfChars p0).map (fun h => (h, 0))
  | p0 :: p1 :: _ =>
    match pyIntOfChars p0, pyIntOfChars p1 with
    | some h, some m => some (h, m)
    | _, _ => none

/-- `compute_next_run(schedule_type, schedule_config, last_run)`.

The wall clock read `datetime.now(timezone.utc).replace(tzinfo=None)` is
passed in as `now` (used only when `last_run` is `None`).  `none` models an
exception escaping the Python function (`ValueError` from `int()` or from a
`replace(...)` with invalid fields). -/
def compute_next_run (now : PyDateTime) (schedule_type : String)
    (schedule_config : Option ScheduleConfig) (last_run? : Option PyDateTime) :
    Option PyDateTime :=
  let last_run := last_run?.getD now
  if schedule_type == TaskType.DAILY && configTruthy schedule_config then
    match parseHourMinute (cfgTime schedule_config) with
    | none => none
    | some hm =>
      match last_run.replaceTime hm.1 hm.2 with
      | none => none
      | some next_run =>
        if pyLe next_run last_run then pyAddSeconds next_run 86400 else some next_run
  else if schedule_type == TaskType.HOURLY then
    pyAddSeconds last_run 3600
  else if schedule_type == TaskType.INTERVAL_SECONDS && configTruthy schedule_config then
    pyAddSeconds last_run (cfgIntervalSeconds schedule_config)
  else if schedule_type == TaskType.MONTHLY && configTruthy schedule_config then
    match parseHourMinute (cfgTime schedule_config) with
    | none => none
    | some hm =>
      match last_run.replaceDayTime (cfgDay schedule_config) hm.1 hm.2 with
      | none => none
      | some next_run =>
        if pyLe next_run last_run then
          if next_run.month == 12 then next_run.replaceYearMonth (next_run.year + 1) 1
          else next_run.replaceYearMonth next_run.year (next_run.month + 1)
        else some next_run
  else
    pyAddSeconds last_run 86400

/-! ## Lemmas about `mkValid` and `pyLe` -/

theorem mkValid_some (year month day hour minute second microsecond : Int)
    (t : PyDateTime)
    (h : mkValid year month day hour minute second microsecond = some t) :
    t = ⟨year.toNat, month.toNat, day.toNat, hour.toNat, minute.toNat,
         second.toNat, microsecond.toNat⟩ ∧
    1 ≤ year ∧ 1 ≤ month ∧ month ≤ 12 ∧ 1 ≤ day ∧
    day ≤ (daysInMonth year.toNat month.toNat : Int) ∧
    0 ≤ hour ∧ hour < 24 ∧ 0 ≤ minute ∧ minute < 60 ∧
    0 ≤ second ∧ second < 60 ∧ 0 ≤ microsecond ∧ microsecond < 1000000 := by
  unfold mkValid at h
  split at h
  · rename_i hc
    simp only [Bool.and_eq_true, decide_eq_true_eq] at hc
    injection h with h
    refine ⟨h.symm, ?_⟩
    omega
  · exact absurd h (by simp)

theorem mkValid_valid (year month day hour minute second microsecond : Int)
    (t : PyDateTime)
    (h : mkValid year month day hour minute second microsecond = some t) :
    t.Valid := by
  obtain ⟨ht, hb⟩ := mkValid_some year month day hour minute second microsecond t h
  subst ht
  apply valid_of_bounds
  dsimp only
  omega

theorem pyLe_true_iff (a b : PyDateTime) : pyLe a b = true ↔ a.toMicros ≤ b.toMicros := by
  simp [pyLe]

theorem pyLe_false_iff (a b : PyDateTime) : pyLe a b = false ↔ b.toMicros < a.toMicros := by
  simp [pyLe]

theorem mkValid_none_of_bad_day (year month day hour minute second microsecond : Int)
    (h : day < 1 ∨ (daysInMonth year.toNat month.toNat : Int) < day) :
    mkValid year month day hour minute second microsecond = none := by
  unfold mkValid
  rw [if_neg]
  simp only [Bool.and_eq_true, decide_eq_true_eq]
  omega

/-- `replace(hour=..., minute=..., second=0, microsecond=0)` succeeds on a
valid datetime whenever the new fields are in range, and only changes the
time-of-day fields. -/
theorem replaceTime_of_valid (lr : PyDateTime) (h mi : Int) (hv : lr.Valid)
    (hh0 : 0 ≤ h) (hh : h < 24) (hm0 : 0 ≤ mi) (hm : mi < 60) :
    lr.replaceTime h mi = some ⟨lr.year, lr.month, lr.day, h.toNat, mi.toNat, 0, 0⟩ := by
  obtain ⟨h1, h2, h3, h4, h5, _, _, _, _⟩ := valid_bounds lr hv
  unfold PyDateTime.replaceTime mkValid
  split
  · simp [Int.toNat_natCast]
  · rename_i hc
    exfalso
    simp only [Bool.and_eq_true, decide_eq_true_eq, Int.toNat_natCast] at hc
    omega

theorem replaceTime_fields (lr nr : PyDateTime) (h mi : Int)
    (hr : lr.replaceTime h mi = some nr) :
    nr.year = lr.year ∧ nr.month = lr.month ∧ nr.day = lr.day ∧ nr.Valid := by
  have hvv := mkValid_valid _ _ _ _ _ _ _ _ hr
  obtain ⟨hn, _⟩ := mkValid_some _ _ _ _ _ _ _ _ hr
  subst hn
  refine ⟨?_, ?_, ?_, hvv⟩ <;> simp [Int.toNat_natCast]

theorem replaceDayTime_fields (lr nr : PyDateTime) (day h mi : Int)
    (hr : lr.replaceDayTime day h mi = some nr) :
    nr.year = lr.year ∧ nr.month = lr.month ∧ nr.day = day.toNat ∧ 1 ≤ nr.day ∧
    nr.Valid := by
  have hvv := mkValid_valid _ _ _ _ _ _ _ _ hr
  obtain ⟨hn, hb⟩ := mkValid_some _ _ _ _ _ _ _ _ hr
  subst hn
  refine ⟨?_, ?_, ?_, ?_, hvv⟩ <;> simp [Int.toNat_natCast]
  omega

theorem replaceYearMonth_fields (t nr : PyDateTime) (y m : Nat)
    (hr : t.replaceYearMonth y m = some nr) :
    nr.year = y ∧ nr.month = m ∧ nr.day = t.day ∧ 1 ≤ nr.day ∧ nr.Valid := by
  have hvv := mkValid_valid _ _ _ _ _ _ _ _ hr
  obtain ⟨hn, hb⟩ := mkValid_some _ _ _ _ _ _ _ _ hr
  subst hn
  refine ⟨?_, ?_, ?_, ?_, hvv⟩ <;> simp [Int.toNat_natCast]
  omega

/-! ## Branch characterisations of `compute_next_run` -/

theorem compute_daily_eq (now lr : PyDateTime) (cfg : Option ScheduleConfig)
    (ht : configTruthy cfg = true) (hm : Int × Int)
    (hp : parseHourMinute (cfgTime cfg) = some hm) (nr : PyDateTime)
    (hr : lr.replaceTime hm.1 hm.2 = some nr) :
    compute_next_run now TaskType.DAILY cfg (some lr)
      = if pyLe nr lr then pyAddSeconds nr 86400 else some nr := by
  unfold compute_next_run
  simp [ht, hp, hr]

theorem compute_hourly_eq (now lr : PyDateTime) (cfg : Option ScheduleConfig) :
    compute_next_run now TaskType.HOURLY cfg (some lr) = pyAddSeconds lr 3600 := by
  unfold compute_next_run
  simp [TaskType.HOURLY, TaskType.DAILY]

theorem compute_interval_eq (now lr : PyDateTime) (cfg : Option ScheduleConfig)
    (ht : configTruthy cfg = true) :
    compute_next_run now TaskType.INTERVAL_SECONDS cfg (some lr)
      = pyAddSeconds lr (cfgIntervalSeconds cfg) := by
  unfold compute_next_run
  simp [ht, TaskType.INTERVAL_SECONDS, TaskType.DAILY, TaskType.HOURLY]

theorem compute_monthly_eq (now lr : PyDateTime) (cfg : Option ScheduleConfig)
    (ht : configTruthy cfg = true) (hm : Int × Int)
    (hp : parseHourMinute (cfgTime cfg) = some hm) (nr : PyDateTime)
    (hr : lr.replaceDayTime (cfgDay cfg) hm.1 hm.2 = some nr) :
    compute_next_run now TaskType.MONTHLY cfg (some lr)
      = if pyLe nr lr then
          (if nr.month == 12 then nr.replaceYearMonth (nr.year + 1) 1
           else nr.replaceYearMonth nr.year (nr.month + 1))
        else some nr := by
  unfold compute_next_run
  simp [ht, hp, hr, TaskType.MONTHLY, TaskType.DAILY, TaskType.HOURLY,
    TaskType.INTERVAL_SECONDS]

theorem compute_daily_parse_fail (now lr : PyDateTime) (cfg : Option ScheduleConfig)
    (ht : configTruthy cfg = true)
    (hp : parseHourMinute (cfgTime cfg) = none) :
    compute_next_run now TaskType.DAILY cfg (some lr) = none := by
  unfold compute_next_run
  simp [ht, hp]

theorem compute_daily_replace_fail (now lr : PyDateTime) (cfg : Option ScheduleConfig)
    (ht : configTruthy cfg = true) (hm : Int × Int)
    (hp : parseHourMinute (cfgTime cfg) = some hm)
    (hr : lr.replaceTime hm.1 hm.2 = none) :
    compute_next_run now TaskType.DAILY cfg (some lr) = none := by
  unfold compute_next_run
  simp [ht, hp, hr]

theorem compute_monthly_replace_fail (now lr : PyDateTime) (cfg : Option ScheduleConfig)
    (ht : configTruthy cfg = true) (hm : Int × Int)
    (hp : parseHourMinute (cfgTime cfg) = some hm)
    (hr : lr.replaceDayTime (cfgDay cfg) hm.1 hm.2 = none) :
    compute_next_run now TaskType.MONTHLY cfg (some lr) = none := by
  unfold compute_next_run
  simp [ht, hp, hr, TaskType.MONTHLY, TaskType.DAILY, TaskType.HOURLY,
    TaskType.INTERVAL_SECONDS]

theorem compute_monthly_parse_fail (now lr : PyDateTime) (cfg : Option ScheduleConfig)
    (ht : configTruthy cfg = true)
    (hp : parseHourMinute (cfgTime cfg) = none) :
    compute_next_run now TaskType.MONTHLY cfg (some lr) = none := by
  unfold compute_next_run
  simp [ht, hp, TaskType.MONTHLY, TaskType.DAILY, TaskType.HOURLY,
    TaskType.INTERVAL_SECONDS]

theorem compute_fallback_eq (now lr : PyDateTime) (kind : String)
    (cfg : Option ScheduleConfig)
    (h1 : kind ≠ TaskType.DAILY) (h2 : kind ≠ TaskType.HOURLY)
    (h3 : kind ≠ TaskType.INTERVAL_SECONDS) (h4 : kind ≠ TaskType.MONTHLY) :
    compute_next_run now kind cfg (some lr) = pyAddSeconds lr 86400 := by
  unfold compute_next_run
  simp [h1, h2, h3, h4]

theorem compute_falsy_fallback_eq (now lr : PyDateTime) (kind : String)
    (cfg : Option ScheduleConfig)
    (hk : kind = TaskType.DAILY ∨ kind = TaskType.INTERVAL_SECONDS ∨
      kind = TaskType.MONTHLY)
    (ht : configTruthy cfg = false) :
    compute_next_run now kind cfg (some lr) = pyAddSeconds lr 86400 := by
  rcases hk with rfl | rfl | rfl <;> unfold compute_next_run <;>
    simp [ht, TaskType.MONTHLY, TaskType.DAILY, TaskType.HOURLY,
      TaskType.INTERVAL_SECONDS]

/-- A falsy config never reaches the IntervalSeconds branch, and the in-code
default for a missing key is the same `86400`. -/
theorem cfgIntervalSeconds_falsy (cfg : Option ScheduleConfig)
    (ht : configTruthy cfg = false) : cfgIntervalSeconds cfg = 86400 := by
  match cfg with
  | none => rfl
  | some c =>
    cases hi : c.interval_seconds with
    | none => simp [cfgIntervalSeconds, hi]
    | some v =>
      exfalso
      unfold configTruthy at ht
      simp only [hi] at ht
      simp at ht

/-! ## `dashboard/core/task.py`: the `task_schedules` table -/

/-- One row of the `task_schedules` table (`dashboard/core/models.py`,
`TaskSchedule`), keyed by `component_name`. -/
structure TaskScheduleRow where
  schedule_type : String
  schedule_config : Option ScheduleConfig
  next_run_at : Option PyDateTime
  last_run_at : Option PyDateTime
  last_error : Option String
  created_at : PyDateTime
  updated_at : PyDateTime
deriving DecidableEq

/-- The table: at most one row per `component_name` (primary key). -/
def DB : Type := String → Option TaskScheduleRow

/-- `get_next_run_from_db(component_name)`: `next_run_at` of the row, `none`
if there is no row or the column is null.  (The catch-all `except` around the
DB read, which also yields `None` on an infrastructure error, is not
modelled.) -/
def get_next_run_from_db (db : DB) (component_name : String) : Option PyDateTime :=
  match db component_name with
  | some row => row.next_run_at
  | none => none

/-- `upsert_task_schedule(component_name, schedule_type, schedule_config,
next_run_at=None, last_run_at=None, last_error=None)`; `now` is the wall
clock read inside the session. -/
def upsert_task_schedule (now : PyDateTime) (db : DB) (component_name : String)
    (schedule_type : String) (schedule_config : Option ScheduleConfig)
    (next_run_at last_run_at : Option PyDateTime) (last_error : Option String) : DB :=
  fun n =>
    if n = component_name then
      match db component_name with
      | some row =>
        some { row with
                schedule_type := schedule_type
                schedule_config := schedule_config
                next_run_at := if next_run_at.isSome then next_run_at else row.next_run_at
                last_run_at := if last_run_at.isSome then last_run_at else row.last_run_at
                last_error := if last_error.isSome then last_error else row.last_error
                updated_at := now }
      | none =>
        some ⟨schedule_type, schedule_config, next_run_at, last_run_at, last_error, now, now⟩
    else db n

/-- `update_after_run(component_name)`: `none` models the exception (and
transaction rollback) when `compute_next_run` raises; a missing row is a
no-change no-op. -/
def update_after_run (now : PyDateTime) (db : DB) (component_name : String) : Option DB :=
  match db component_name with
  | none => some db
  | some row =>
    match compute_next_run now row.schedule_type row.schedule_config (some now) with
    | none => none
    | some nr =>
      some (fun n =>
        if n = component_name then
          some { row with
                  last_run_at := some now
                  last_error := none
                  next_run_at := some nr
                  updated_at := now }
        else db n)

/-- The scheduling-relevant state of a `BaseTask` instance.  `__init__` does
`self.schedule_config = schedule_config or {}`, so the stored config is a
dict (possibly empty), never `None`. -/
structure BaseTask where
  component_name : String
  schedule_type : String
  schedule_config : ScheduleConfig

/-- `BaseTask.__init__`'s normalisation of the config argument. -/
def BaseTask.make (component_name schedule_type : String)
    (schedule_config : Option ScheduleConfig) : BaseTask :=
  ⟨component_name, schedule_type,
   if configTruthy schedule_config then schedule_config.getD emptyConfig else emptyConfig⟩

/-- `BaseTask.ensure_scheduled(next_run_at=None)`: delegates to
`upsert_task_schedule` with only `next_run_at` supplied. -/
def ensure_scheduled (now : PyDateTime) (t : BaseTask)
    (next_run_at : Option PyDateTime) (db : DB) : DB :=
  upsert_task_schedule now db t.component_name t.schedule_type
    (some t.schedule_config) next_run_at none none

/-! ## `dashboard/core/task_manager.py`: TaskManager

`self.tasks` is a `Dict[str, Timer]`; it is modelled as an association list
with dict-update semantics (`dictInsert`), so that "exactly one entry per
name" is a provable property of the update discipline rather than baked into
a function type.  A `threading.Timer` is modelled by the data the manager
attaches to it (`delay`, the `scheduled_time` it stamps on the object);
wall-clock reads (`datetime.now().timestamp()`, in whole seconds) are passed
in as `nowTs`.  Runnables are arbitrary Python callables; a runnable is
modelled by its observable effect on the schedule table plus a flag telling
whether it raised. -/

structure PyTimer where
  delay : Int
  scheduled_time : Int
deriving DecidableEq

/-- `d[k] = v` on a dict represented as an association list (updates the
existing slot in place, else appends). -/
def dictInsert {α : Type} (l : List (String × α)) (k : String) (v : α) :
    List (String × α) :=
  match l with
  | [] => [(k, v)]
  | p :: rest =>
    if p.1 = k then (k, v) :: rest else p :: dictInsert rest k v

/-- In-memory state of a `TaskManager`: the timer dict, the keys of
`_registered_tasks`, `_registered_config` (configs modelled as opaque
handles), and the schedule table the DB-backed paths read and write. -/
structure TMState where
  tasks : List (String × PyTimer)
  registered : List String
  registeredConfig : List (String × (Nat × Option Nat))
  db : DB

/-- `schedule_task(name, callback, delay, one_time)`: cancel any existing
timer under `name`, then store and start a fresh one stamped with
`scheduled_time = now + delay`.  Returns the new dict together with the
timer `.cancel()` was invoked on (if any). -/
def schedule_task (nowTs : Int) (tasks : List (String × PyTimer))
    (name : String) (delay : Int) : List (String × PyTimer) × Option PyTimer :=
  (dictInsert tasks name ⟨delay, nowTs + delay⟩, List.lookup name tasks)

/-- `get_active_timers()`: every timer in the dict carries the
`scheduled_time` attribute (it is set before insertion), so the
`getattr(...) is not None` filter keeps every entry. -/
def get_active_timers (tasks : List (String × PyTimer)) : List (String × Int) :=
  tasks.map (fun p => (p.1, p.2.scheduled_time))

/-- The delay computation of `schedule_registered_task`:
`0` for a null next-run, else `max(0, int((next_run - now).total_seconds()))`
(`int()` truncates toward zero, as `Int.div` does). -/
def scheduleDelay (next_run : Option PyDateTime) (now : PyDateTime) : Int :=
  match next_run with
  | none => 0
  | some nr => max 0 (Int.tdiv ((nr.toMicros : Int) - (now.toMicros : Int)) 1000000)

/-- `schedule_registered_task(component_name, config, config_data)`:
no-op (with a warning) when no runnable is registered; else store the config
snapshot, read `next_run_at` from the DB, compute the delay and arm a
one-shot timer under `component_name`. -/
def schedule_registered_task (now : PyDateTime) (nowTs : Int) (st : TMState)
    (component_name : String) (config : Nat) (config_data : Option Nat) : TMState :=
  if component_name ∈ st.registered then
    let cfgs := dictInsert st.registeredConfig component_name (config, config_data)
    let delay := scheduleDelay (get_next_run_from_db st.db component_name) now
    { st with
        registeredConfig := cfgs
        tasks := (schedule_task nowTs st.tasks component_name delay).1 }
  else st

/-- `_run_registered_and_reschedule(component_name)` — the fire path.
`runnable db = (db', raised)` abstracts the stored callable: `db'` is the
schedule table after its (possibly partial) effects and `raised` tells
whether it raised.  The `try/except` around the invocation catches and logs
`raised`; it has no effect on the state, which is why the function is total
(no exception propagates) and ignores `raised` past the catch.  The
stored-config lookup is performed twice, exactly as in the source: once
before invoking (early `return` on a missing config skips the re-arm), once
for the re-arm itself. -/
def run_registered_and_reschedule (now : PyDateTime) (nowTs : Int) (st : TMState)
    (component_name : String) (runnable : DB → DB × Bool) : TMState :=
  if component_name ∈ st.registered then
    match List.lookup component_name st.registeredConfig with
    | none => st
    | some _ =>
      let res := runnable st.db
      let st' := { st with db := res.1 }
      match List.lookup component_name st'.registeredConfig with
      | none => st'
      | some cfg => schedule_registered_task now nowTs st' component_name cfg.1 cfg.2
  else
    match List.lookup component_name st.registeredConfig with
    | none => st
    | some cfg => schedule_registered_task now nowTs st component_name cfg.1 cfg.2

/-! ## Dictionary lemmas (`Dict[str, ...]` represented as association lists) -/

/-- The key-uniqueness invariant every Python dict satisfies. -/
def keysNodup {α : Type} (l : List (String × α)) : Prop :=
  (l.map Prod.fst).Nodup

theorem lookup_dictInsert_self {α : Type} (l : List (String × α)) (k : String) (v : α) :
    List.lookup k (dictInsert l k v) = some v := by
  induction l with
  | nil => simp [dictInsert, List.lookup]
  | cons p rest ih =>
    unfold dictInsert
    split
    · simp [List.lookup]
    · rename_i h
      have h' : (k == p.1) = false := beq_eq_false_iff_ne.mpr (fun e => h e.symm)
      simp [List.lookup, h', ih]

theorem mem_keys_dictInsert {α : Type} (l : List (String × α)) (k a : String) (v : α)
    (h : a ∈ (dictInsert l k v).map Prod.fst) : a = k ∨ a ∈ l.map Prod.fst := by
  induction l with
  | nil =>
    simp [dictInsert] at h
    exact Or.inl h
  | cons p rest ih =>
    unfold dictInsert at h
    split at h
    · simp only [List.map_cons, List.mem_cons] at h ⊢
      rcases h with h | h
      · exact Or.inl h
      · exact Or.inr (Or.inr h)
    · simp only [List.map_cons, List.mem_cons] at h ⊢
      rcases h with h | h
      · exact Or.inr (Or.inl h)
      · rcases ih h with h' | h'
        · exact Or.inl h'
        · exact Or.inr (Or.inr h')

theorem keysNodup_dictInsert {α : Type} (l : List (String × α)) (k : String) (v : α)
    (h : keysNodup l) : keysNodup (dictInsert l k v) := by
  induction l with
  | nil => simp [keysNodup, dictInsert]
  | cons p rest ih =>
    unfold keysNodup at h ⊢
    simp only [List.map_cons, List.nodup_cons] at h
    obtain ⟨hnm, hnd⟩ := h
    unfold dictInsert
    split
    · rename_i he
      simp only [List.map_cons, List.nodup_cons]
      exact ⟨he ▸ hnm, hnd⟩
    · rename_i he
      simp only [List.map_cons, List.nodup_cons]
      refine ⟨?_, ih hnd⟩
      intro hmem
      rcases mem_keys_dictInsert rest k p.1 v hmem with h' | h'
      · exact he h'
      · exact hnm h'

theorem countP_keys_dictInsert {α : Type} (l : List (String × α)) (k : String) (v : α)
    (h : keysNodup l) :
    List.countP (fun p => p.1 == k) (dictInsert l k v) = 1 := by
  induction l with
  | nil => simp [dictInsert]
  | cons p rest ih =>
    unfold keysNodup at h
    simp only [List.map_cons, List.nodup_cons] at h
    obtain ⟨hnm, hnd⟩ := h
    unfold dictInsert
    split
    · rename_i he
      rw [List.countP_cons_of_pos _ _ (by simp)]
      have h0 : List.countP (fun p => p.1 == k) rest = 0 := by
        apply List.countP_eq_zero.mpr
        intro a ha hak
        have hak' : a.1 = k := by simpa using hak
        apply hnm
        rw [he, ← hak']
        exact List.mem_map_of_mem Prod.fst ha
      rw [h0]
    · rename_i he
      rw [List.countP_cons_of_neg _ _ (by simp [he])]
      exact ih hnd

/-! ## Concrete fixtures used by witnesses and counterexamples -/

def cexNow : PyDateTime := ⟨2, 1, 1, 0, 0, 0, 0⟩

def cexDt0 : PyDateTime := ⟨2, 1, 5, 0, 0, 0, 0⟩

def cexDt1 : PyDateTime := ⟨2, 1, 9, 0, 0, 0, 0⟩

def cexCfg : ScheduleConfig := ⟨some "07:00", none, none, false⟩

def cexRow : TaskScheduleRow := ⟨"daily", some cexCfg, some cexDt0, none, none, cexNow, cexNow⟩

def cexDb : DB := fun n => if n = "weather" then some cexRow else none

def cexTask : BaseTask := ⟨"weather", "daily", cexCfg⟩

def cexRowH : TaskScheduleRow := ⟨"hourly", none, none, none, some "boom", cexNow, cexNow⟩

def cexDbH : DB := fun n => if n = "weather" then some cexRowH else none

/-! ## The claims -/

/-- C1 (counterexample): calling `ensure_scheduled` / `upsert_task_schedule`
on an existing row with an explicit non-None `next_run_at` argument
overwrites the stored `next_run_at` (here `Jan 5` becomes `Jan 9`), so the
claim's "with any value of its optional `next_run_at` argument" is false. -/
theorem upsert_overwrites_next_run_cex :
    Option.map TaskScheduleRow.next_run_at
        ((ensure_scheduled cexNow cexTask (some cexDt1) cexDb) "weather")
      = some (some cexDt1)
    ∧ Option.map TaskScheduleRow.next_run_at (cexDb "weather") = some (some cexDt0)
    ∧ cexDt0 ≠ cexDt1 := by
  refine ⟨?_, by decide, by decide⟩
  unfold ensure_scheduled upsert_task_schedule
  decide

/-- C1 (amended): for an existing row, `upsert_task_schedule` (and hence
`ensure_scheduled`) with the `next_run_at` argument left at its default
`None` updates `schedule_type` and `schedule_config` but leaves the row's
`next_run_at` unchanged; only a call that passes an explicit non-None
`next_run_at` (or `update_after_run`) changes it. -/
theorem upsert_existing_row_frame (now : PyDateTime) (db : DB)
    (name ty : String) (cfg : Option ScheduleConfig)
    (lra : Option PyDateTime) (le : Option String) (row : TaskScheduleRow)
    (h : db name = some row) :
    Option.map TaskScheduleRow.next_run_at
        ((upsert_task_schedule now db name ty cfg none lra le) name)
      = some row.next_run_at
    ∧ Option.map TaskScheduleRow.schedule_type
        ((upsert_task_schedule now db name ty cfg none lra le) name)
      = some ty
    ∧ Option.map TaskScheduleRow.schedule_config
        ((upsert_task_schedule now db name ty cfg none lra le) name)
      = some cfg
    ∧ Option.map TaskScheduleRow.next_run_at
        ((ensure_scheduled now ⟨name, ty, emptyConfig⟩ none db) name)
      = some row.next_run_at := by
  unfold ensure_scheduled upsert_task_schedule
  simp [h]

theorem upsert_existing_row_frame_witness :
    cexDb "weather" = some cexRow
    ∧ (Option.map TaskScheduleRow.next_run_at
          ((upsert_task_schedule cexNow cexDb "weather" "hourly" none none none none) "weather")
        = some cexRow.next_run_at
      ∧ Option.map TaskScheduleRow.schedule_type
          ((upsert_task_schedule cexNow cexDb "weather" "hourly" none none none none) "weather")
        = some "hourly"
      ∧ Option.map TaskScheduleRow.schedule_config
          ((upsert_task_schedule cexNow cexDb "weather" "hourly" none none none none) "weather")
        = some none
      ∧ Option.map TaskScheduleRow.next_run_at
          ((ensure_scheduled cexNow ⟨"weather", "hourly", emptyConfig⟩ none cexDb) "weather")
        = some cexRow.next_run_at) :=
  ⟨by decide,
   upsert_existing_row_frame cexNow cexDb "weather" "hourly" none none none cexRow (by decide)⟩

/-- C3: when the row exists and `compute_next_run` succeeds at the current
time `now`, `update_after_run` sets `last_run_at = now`, clears
`last_error`, sets `next_run_at = compute_next_run(kind, params, now)`, and
leaves `schedule_type` / `schedule_config` unchanged. -/
theorem update_after_run_spec (now : PyDateTime) (db : DB) (name : String)
    (row : TaskScheduleRow) (nr : PyDateTime)
    (hrow : db name = some row)
    (hc : compute_next_run now row.schedule_type row.schedule_config (some now) = some nr) :
    Option.map (fun d => d name) (update_after_run now db name)
      = some (some { row with last_run_at := some now, last_error := none, next_run_at := some nr, updated_at := now }) := by
  unfold update_after_run
  simp only [hrow, hc]
  simp

theorem update_after_run_spec_witness :
    cexDbH "weather" = some cexRowH
    ∧ compute_next_run cexNow cexRowH.schedule_type cexRowH.schedule_config (some cexNow)
        = some ⟨2, 1, 1, 1, 0, 0, 0⟩
    ∧ Option.map (fun d => d "weather") (update_after_run cexNow cexDbH "weather")
        = some (some { cexRowH with last_run_at := some cexNow, last_error := none, next_run_at := some (⟨2, 1, 1, 1, 0, 0, 0⟩ : PyDateTime), updated_at := cexNow }) :=
  ⟨by decide, by decide,
   update_after_run_spec cexNow cexDbH "weather" cexRowH ⟨2, 1, 1, 1, 0, 0, 0⟩
     (by decide) (by decide)⟩

/-- C4 (counterexample): a Monthly schedule with `day=31` and a February
`last_run` makes `compute_next_run` raise `ValueError` (modelled `none`); it
does not clamp to the last valid day of the month, contradicting the claim
that it never raises. -/
theorem monthly_invalid_day_cex :
    compute_next_run cexNow TaskType.MONTHLY
      (some ⟨some "00:00", none, some 31, false⟩)
      (some ⟨2, 2, 10, 0, 0, 0, 0⟩) = none := by decide

/-- C4 (amended): for a Monthly schedule whose `day` is not a valid day of
`last_run`'s month, `compute_next_run` raises `ValueError` (the `replace`
call fails, modelled as `none`) instead of clamping; the rollover into a
shorter month (second conjunct: `day=31`, `last_run = Jan 31`, rolled into
February) raises likewise. -/
theorem monthly_invalid_day_raises (now lr : PyDateTime) (cfg : Option ScheduleConfig)
    (ht : configTruthy cfg = true)
    (hd : cfgDay cfg < 1 ∨ (daysInMonth lr.year lr.month : Int) < cfgDay cfg) :
    compute_next_run now TaskType.MONTHLY cfg (some lr) = none
    ∧ compute_next_run cexNow TaskType.MONTHLY
        (some ⟨some "00:00", none, some 31, false⟩)
        (some ⟨2, 1, 31, 0, 0, 0, 0⟩) = none := by
  refine ⟨?_, by decide⟩
  cases hp : parseHourMinute (cfgTime cfg) with
  | none => exact compute_monthly_parse_fail now lr cfg ht hp
  | some hm =>
    apply compute_monthly_replace_fail now lr cfg ht hm hp
    unfold PyDateTime.replaceDayTime
    apply mkValid_none_of_bad_day
    simpa [Int.toNat_natCast] using hd

theorem monthly_invalid_day_raises_witness :
    configTruthy (some ⟨some "00:00", none, some 31, false⟩) = true
    ∧ (cfgDay (some ⟨some "00:00", none, some 31, false⟩) < 1
       ∨ (daysInMonth 2 2 : Int) < cfgDay (some ⟨some "00:00", none, some 31, false⟩))
    ∧ (compute_next_run cexNow TaskType.MONTHLY
          (some ⟨some "00:00", none, some 31, false⟩)
          (some ⟨2, 2, 10, 0, 0, 0, 0⟩) = none
      ∧ compute_next_run cexNow TaskType.MONTHLY
          (some ⟨some "00:00", none, some 31, false⟩)
          (some ⟨2, 1, 31, 0, 0, 0, 0⟩) = none) :=
  ⟨by decide, by decide,
   monthly_invalid_day_raises cexNow ⟨2, 2, 10, 0, 0, 0, 0⟩
     (some ⟨some "00:00", none, some 31, false⟩) (by decide) (by decide)⟩

/-- C9: for every schedule kind other than the four recognized ones,
`compute_next_run` with a non-None `last_run` returns exactly
`last_run + 1 day` (86400 s, microsecond-exact) and never raises. -/
theorem unknown_kind_fallback (now lr : PyDateTime) (kind : String)
    (cfg : Option ScheduleConfig)
    (h1 : kind ≠ TaskType.DAILY) (h2 : kind ≠ TaskType.HOURLY)
    (h3 : kind ≠ TaskType.INTERVAL_SECONDS) (h4 : kind ≠ TaskType.MONTHLY) :
    compute_next_run now kind cfg (some lr) = pyAddSeconds lr 86400
    ∧ (compute_next_run now kind cfg (some lr)).isSome = true
    ∧ Option.map PyDateTime.toMicros (compute_next_run now kind cfg (some lr))
      = some (lr.toMicros + 86400 * 1000000) := by
  have heq := compute_fallback_eq now lr kind cfg h1 h2 h3 h4
  obtain ⟨t', ht', _, _, _⟩ := pyAddSeconds_spec lr 86400 (by omega)
  have hmic := pyAddSeconds_toMicros lr t' 86400 ht'
  refine ⟨heq, ?_, ?_⟩
  · rw [heq, ht']
    rfl
  · rw [heq, ht']
    simp only [Option.map_some']
    exact Option.some_inj.mpr (by omega)

theorem unknown_kind_fallback_witness :
    "weekly" ≠ TaskType.DAILY ∧ "weekly" ≠ TaskType.HOURLY
    ∧ "weekly" ≠ TaskType.INTERVAL_SECONDS ∧ "weekly" ≠ TaskType.MONTHLY
    ∧ (compute_next_run cexNow "weekly" none (some cexNow) = pyAddSeconds cexNow 86400
      ∧ (compute_next_run cexNow "weekly" none (some cexNow)).isSome = true
      ∧ Option.map PyDateTime.toMicros (compute_next_run cexNow "weekly" none (some cexNow))
        = some (cexNow.toMicros + 86400 * 1000000)) :=
  ⟨by decide, by decide, by decide, by decide,
   unknown_kind_fallback cexNow cexNow "weekly" none
     (by decide) (by decide) (by decide) (by decide)⟩

/-- C10: for the recognized kinds Daily, IntervalSeconds and Monthly, a
`None` or empty (falsy) `schedule_config` sends `compute_next_run` to the
unknown-kind fallback `last_run + 1 day`, whereas a non-empty config missing
the relevant keys gets the per-key defaults (third conjunct: a config with
only unrelated keys makes Daily use `"00:00"`, yielding next midnight, not
`last_run + 1 day`). -/
theorem falsy_config_fallback (now lr : PyDateTime) (kind : String)
    (cfg : Option ScheduleConfig)
    (hk : kind = TaskType.DAILY ∨ kind = TaskType.INTERVAL_SECONDS ∨
      kind = TaskType.MONTHLY)
    (ht : configTruthy cfg = false) :
    compute_next_run now kind cfg (some lr) = pyAddSeconds lr 86400
    ∧ Option.map PyDateTime.toMicros (compute_next_run now kind cfg (some lr))
      = some (lr.toMicros + 86400 * 1000000)
    ∧ compute_next_run cexNow TaskType.DAILY (some ⟨none, none, none, true⟩)
        (some ⟨2, 1, 1, 6, 0, 0, 0⟩) = some ⟨2, 1, 2, 0, 0, 0, 0⟩ := by
  have heq := compute_falsy_fallback_eq now lr kind cfg hk ht
  obtain ⟨t', ht', _, _, _⟩ := pyAddSeconds_spec lr 86400 (by omega)
  have hmic := pyAddSeconds_toMicros lr t' 86400 ht'
  refine ⟨heq, ?_, by decide⟩
  rw [heq, ht']
  simp only [Option.map_some']
  exact Option.some_inj.mpr (by omega)

theorem falsy_config_fallback_witness :
    (TaskType.MONTHLY = TaskType.DAILY ∨ TaskType.MONTHLY = TaskType.INTERVAL_SECONDS ∨
      TaskType.MONTHLY = TaskType.MONTHLY)
    ∧ configTruthy (some emptyConfig) = false
    ∧ (compute_next_run cexNow TaskType.MONTHLY (some emptyConfig) (some cexDt0)
        = pyAddSeconds cexDt0 86400
      ∧ Option.map PyDateTime.toMicros
          (compute_next_run cexNow TaskType.MONTHLY (some emptyConfig) (some cexDt0))
        = some (cexDt0.toMicros + 86400 * 1000000)
      ∧ compute_next_run cexNow TaskType.DAILY (some ⟨none, none, none, true⟩)
          (some ⟨2, 1, 1, 6, 0, 0, 0⟩) = some ⟨2, 1, 2, 0, 0, 0, 0⟩) :=
  ⟨by decide, by decide,
   falsy_config_fallback cexNow cexDt0 TaskType.MONTHLY (some emptyConfig)
     (by decide) (by decide)⟩

/-- C6: for a brand-new task name (no row), `ensure_scheduled` without an
explicit `next_run_at` inserts a row with a null `next_run_at`;
`get_next_run_from_db` returns `None` both for the missing row and for the
null column; and `schedule_registered_task` computes delay `0` from the
`None` next-run, arming an immediate (delay-0) timer. -/
theorem null_next_run_means_immediate (now nowUp : PyDateTime) (nowTs : Int)
    (db : DB) (t : BaseTask) (st : TMState) (c : Nat) (cd : Option Nat)
    (hnew : db t.component_name = none)
    (hdb : st.db = ensure_scheduled nowUp t none db)
    (hreg : t.component_name ∈ st.registered) :
    Option.map TaskScheduleRow.next_run_at
        ((ensure_scheduled nowUp t none db) t.component_name) = some none
    ∧ get_next_run_from_db (ensure_scheduled nowUp t none db) t.component_name = none
    ∧ get_next_run_from_db db t.component_name = none
    ∧ scheduleDelay (get_next_run_from_db st.db t.component_name) now = 0
    ∧ List.lookup t.component_name
        (schedule_registered_task now nowTs st t.component_name c cd).tasks
      = some ⟨0, nowTs⟩ := by
  have h1 : (ensure_scheduled nowUp t none db) t.component_name
      = some ⟨t.schedule_type, some t.schedule_config, none, none, none, nowUp, nowUp⟩ := by
    unfold ensure_scheduled upsert_task_schedule
    simp [hnew]
  have h2 : get_next_run_from_db (ensure_scheduled nowUp t none db) t.component_name
      = none := by
    unfold get_next_run_from_db
    rw [h1]
  have h3 : get_next_run_from_db db t.component_name = none := by
    unfold get_next_run_from_db
    rw [hnew]
  have h4 : scheduleDelay (get_next_run_from_db st.db t.component_name) now = 0 := by
    rw [hdb, h2]
    rfl
  refine ⟨by rw [h1]; rfl, h2, h3, h4, ?_⟩
  unfold schedule_registered_task
  rw [if_pos hreg]
  unfold schedule_task
  dsimp only
  rw [h4]
  have := lookup_dictInsert_self st.tasks t.component_name
    (⟨0, nowTs + 0⟩ : PyTimer)
  simpa using this

/-- C7: `self.tasks` is keyed by name and `schedule_task` cancels any
existing timer before storing the new one, so scheduling the same name
twice keeps the key set duplicate-free, leaves exactly one entry for that
name in `get_active_timers()`, and the timer cancelled by the second call
is exactly the one the first call created. -/
theorem single_active_timer_per_name (ts0 : List (String × PyTimer))
    (name : String) (nowTs1 nowTs2 delay1 delay2 : Int)
    (h : keysNodup ts0) :
    keysNodup (schedule_task nowTs2 (schedule_task nowTs1 ts0 name delay1).1 name delay2).1
    ∧ List.countP (fun q => q.1 == name)
        (get_active_timers
          (schedule_task nowTs2 (schedule_task nowTs1 ts0 name delay1).1 name delay2).1) = 1
    ∧ (schedule_task nowTs2 (schedule_task nowTs1 ts0 name delay1).1 name delay2).2
      = some ⟨delay1, nowTs1 + delay1⟩ := by
  unfold schedule_task get_active_timers
  dsimp only
  refine ⟨keysNodup_dictInsert _ _ _ (keysNodup_dictInsert _ _ _ h), ?_, ?_⟩
  · rw [List.countP_map]
    exact countP_keys_dictInsert _ _ _ (keysNodup_dictInsert _ _ _ h)
  · exact lookup_dictInsert_self ts0 name ⟨delay1, nowTs1 + delay1⟩

theorem single_active_timer_per_name_witness :
    keysNodup ([] : List (String × PyTimer))
    ∧ (keysNodup (schedule_task 20 (schedule_task 10 [] "weather" 3).1 "weather" 4).1
      ∧ List.countP (fun q => q.1 == "weather")
          (get_active_timers
            (schedule_task 20 (schedule_task 10 [] "weather" 3).1 "weather" 4).1) = 1
      ∧ (schedule_task 20 (schedule_task 10 [] "weather" 3).1 "weather" 4).2
        = some ⟨3, 10 + 3⟩) :=
  ⟨by simp [keysNodup],
   single_active_timer_per_name [] "weather" 10 20 3 4 (by simp [keysNodup])⟩

/-- C8: the fire path `_run_registered_and_reschedule` treats a raising
runnable and a successful one identically past the `try/except` (the
exception is caught and logged, never propagated — the model is total), and
in both cases re-arms one timer for the name via the normal
`get_next_run`-based delay computation on the post-run schedule table. -/
theorem fire_path_catches_and_rearms (now : PyDateTime) (nowTs : Int) (st : TMState)
    (name : String) (f : DB → DB) (ccd : Nat × Option Nat)
    (hreg : name ∈ st.registered)
    (hcfg : List.lookup name st.registeredConfig = some ccd) :
    run_registered_and_reschedule now nowTs st name (fun db => (f db, true))
      = run_registered_and_reschedule now nowTs st name (fun db => (f db, false))
    ∧ List.lookup name
        (run_registered_and_reschedule now nowTs st name (fun db => (f db, true))).tasks
      = some ⟨scheduleDelay (get_next_run_from_db (f st.db) name) now,
              nowTs + scheduleDelay (get_next_run_from_db (f st.db) name) now⟩ := by
  constructor
  · rfl
  · unfold run_registered_and_reschedule
    rw [if_pos hreg]
    simp only [hcfg]
    unfold schedule_registered_task
    rw [if_pos hreg]
    unfold schedule_task
    dsimp only
    exact lookup_dictInsert_self _ _ _

def cexEmptyDb : DB := fun _ => none

def cexStC6 : TMState :=
  ⟨[], ["weather"], [], ensure_scheduled cexNow cexTask none cexEmptyDb⟩

theorem null_next_run_means_immediate_witness :
    cexEmptyDb "weather" = none
    ∧ cexStC6.db = ensure_scheduled cexNow cexTask none cexEmptyDb
    ∧ "weather" ∈ cexStC6.registered
    ∧ (Option.map TaskScheduleRow.next_run_at
          ((ensure_scheduled cexNow cexTask none cexEmptyDb) "weather") = some none
      ∧ get_next_run_from_db (ensure_scheduled cexNow cexTask none cexEmptyDb) "weather" = none
      ∧ get_next_run_from_db cexEmptyDb "weather" = none
      ∧ scheduleDelay (get_next_run_from_db cexStC6.db "weather") cexDt0 = 0
      ∧ List.lookup "weather"
          (schedule_registered_task cexDt0 7 cexStC6 "weather" 1 none).tasks
        = some ⟨0, 7⟩) :=
  ⟨rfl, rfl, by simp [cexStC6],
   null_next_run_means_immediate cexDt0 cexNow 7 cexEmptyDb cexTask cexStC6 1 none
     rfl rfl (by simp [cexStC6, cexTask])⟩

def cexStC8 : TMState := ⟨[], ["weather"], [("weather", (5, none))], cexDb⟩

theorem fire_path_catches_and_rearms_witness :
    "weather" ∈ cexStC8.registered
    ∧ List.lookup "weather" cexStC8.registeredConfig = some (5, none)
    ∧ (run_registered_and_reschedule cexNow 7 cexStC8 "weather" (fun db => (db, true))
        = run_registered_and_reschedule cexNow 7 cexStC8 "weather" (fun db => (db, false))
      ∧ List.lookup "weather"
          (run_registered_and_reschedule cexNow 7 cexStC8 "weather" (fun db => (db, true))).tasks
        = some ⟨scheduleDelay (get_next_run_from_db cexDb "weather") cexNow,
                7 + scheduleDelay (get_next_run_from_db cexDb "weather") cexNow⟩) :=
  ⟨by simp [cexStC8], by decide,
   fire_path_catches_and_rearms cexNow 7 cexStC8 "weather" (fun db => db) (5, none)
     (by simp [cexStC8]) (by decide)⟩

/-- C2: for every recognized schedule kind, parameters well-formed enough
for the computation to return (which the claim's "well-formed parameters"
presupposes; for IntervalSeconds additionally a positive interval) and any
valid non-None `last_run`, the result is strictly greater than `last_run`;
for Hourly it is exactly `last_run + 1 hour` and for IntervalSeconds
exactly `last_run + interval_seconds`, microsecond for microsecond. -/
theorem compute_next_run_strictly_increases (now lr nr : PyDateTime) (kind : String)
    (cfg : Option ScheduleConfig) (hv : lr.Valid)
    (hk : kind = TaskType.DAILY ∨ kind = TaskType.HOURLY ∨
      kind = TaskType.INTERVAL_SECONDS ∨ kind = TaskType.MONTHLY)
    (hpos : kind = TaskType.INTERVAL_SECONDS → 0 < cfgIntervalSeconds cfg)
    (hc : compute_next_run now kind cfg (some lr) = some nr) :
    lr.toMicros < nr.toMicros
    ∧ (kind = TaskType.HOURLY →
        (nr.toMicros : Int) = (lr.toMicros : Int) + 3600 * 1000000)
    ∧ (kind = TaskType.INTERVAL_SECONDS →
        (nr.toMicros : Int) = (lr.toMicros : Int) + cfgIntervalSeconds cfg * 1000000) := by
  rcases hk with rfl | rfl | rfl | rfl
  · refine ⟨?_, fun h => absurd h (by decide), fun h => absurd h (by decide)⟩
    cases ht : configTruthy cfg with
    | false =>
      rw [compute_falsy_fallback_eq now lr TaskType.DAILY cfg (Or.inl rfl) ht] at hc
      have hmic := pyAddSeconds_toMicros lr nr 86400 hc
      omega
    | true =>
      cases hp : parseHourMinute (cfgTime cfg) with
      | none =>
        rw [compute_daily_parse_fail now lr cfg ht hp] at hc
        exact absurd hc (by simp)
      | some hm =>
        cases hr : lr.replaceTime hm.1 hm.2 with
        | none =>
          rw [compute_daily_replace_fail now lr cfg ht hm hp hr] at hc
          exact absurd hc (by simp)
        | some nr1 =>
          obtain ⟨hy, hmo, hd, hv1⟩ := replaceTime_fields lr nr1 hm.1 hm.2 hr
          rw [compute_daily_eq now lr cfg ht hm hp nr1 hr] at hc
          cases hle : pyLe nr1 lr with
          | false =>
            rw [if_neg (by simp [hle])] at hc
            injection hc with hc
            subst hc
            exact (pyLe_false_iff _ _).mp hle
          | true =>
            rw [if_pos hle] at hc
            have hmic := pyAddSeconds_toMicros nr1 nr 86400 hc
            have hsame := toMicros_lt_add_day_same_date lr nr1 hv hy hmo hd
            omega
  · rw [compute_hourly_eq now lr cfg] at hc
    have hmic := pyAddSeconds_toMicros lr nr 3600 hc
    exact ⟨by omega, fun _ => by omega, fun h => absurd h (by decide)⟩
  · cases ht : configTruthy cfg with
    | true =>
      rw [compute_interval_eq now lr cfg ht] at hc
      have hmic := pyAddSeconds_toMicros lr nr (cfgIntervalSeconds cfg) hc
      have hp := hpos rfl
      exact ⟨by omega, fun h => absurd h (by decide), fun _ => by omega⟩
    | false =>
      rw [compute_falsy_fallback_eq now lr TaskType.INTERVAL_SECONDS cfg
        (Or.inr (Or.inl rfl)) ht] at hc
      have hmic := pyAddSeconds_toMicros lr nr 86400 hc
      have h86 := cfgIntervalSeconds_falsy cfg ht
      exact ⟨by omega, fun h => absurd h (by decide), fun _ => by omega⟩
  · refine ⟨?_, fun h => absurd h (by decide), fun h => absurd h (by decide)⟩
    cases ht : configTruthy cfg with
    | false =>
      rw [compute_falsy_fallback_eq now lr TaskType.MONTHLY cfg
        (Or.inr (Or.inr rfl)) ht] at hc
      have hmic := pyAddSeconds_toMicros lr nr 86400 hc
      omega
    | true =>
      cases hp : parseHourMinute (cfgTime cfg) with
      | none =>
        rw [compute_monthly_parse_fail now lr cfg ht hp] at hc
        exact absurd hc (by simp)
      | some hm =>
        cases hr : lr.replaceDayTime (cfgDay cfg) hm.1 hm.2 with
        | none =>
          rw [compute_monthly_replace_fail now lr cfg ht hm hp hr] at hc
          exact absurd hc (by simp)
        | some nr1 =>
          obtain ⟨hy, hmo, hd, hd1, hv1⟩ :=
            replaceDayTime_fields lr nr1 (cfgDay cfg) hm.1 hm.2 hr
          rw [compute_monthly_eq now lr cfg ht hm hp nr1 hr] at hc
          cases hle : pyLe nr1 lr with
          | false =>
            rw [if_neg (by simp [hle])] at hc
            injection hc with hc
            subst hc
            exact (pyLe_false_iff _ _).mp hle
          | true =>
            rw [if_pos hle] at hc
            cases h12 : (nr1.month == 12) with
            | true =>
              rw [if_pos h12] at hc
              obtain ⟨gy, gm, gd, gd1, gv⟩ :=
                replaceYearMonth_fields nr1 nr (nr1.year + 1) 1 hc
              apply monthly_rollover_dec_lt lr nr hv
              · rw [gy, hy]
              · exact gm
              · rw [← hmo]
                simpa using h12
            | false =>
              rw [if_neg (by simp [h12])] at hc
              obtain ⟨gy, gm, gd, gd1, gv⟩ :=
                replaceYearMonth_fields nr1 nr nr1.year (nr1.month + 1) hc
              apply monthly_rollover_succ_lt lr nr hv
              · rw [gy, hy]
              · rw [gm, hmo]
              · have hne : nr1.month ≠ 12 := by simpa using h12
                obtain ⟨_, _, hm12, _, _, _, _, _, _⟩ := valid_bounds lr hv
                omega

theorem compute_next_run_strictly_increases_witness :
    cexNow.Valid
    ∧ (TaskType.HOURLY = TaskType.DAILY ∨ TaskType.HOURLY = TaskType.HOURLY ∨
        TaskType.HOURLY = TaskType.INTERVAL_SECONDS ∨ TaskType.HOURLY = TaskType.MONTHLY)
    ∧ (TaskType.HOURLY = TaskType.INTERVAL_SECONDS → 0 < cfgIntervalSeconds none)
    ∧ compute_next_run cexNow TaskType.HOURLY none (some cexNow)
        = some ⟨2, 1, 1, 1, 0, 0, 0⟩
    ∧ (cexNow.toMicros < (⟨2, 1, 1, 1, 0, 0, 0⟩ : PyDateTime).toMicros
      ∧ (TaskType.HOURLY = TaskType.HOURLY →
          ((⟨2, 1, 1, 1, 0, 0, 0⟩ : PyDateTime).toMicros : Int)
            = (cexNow.toMicros : Int) + 3600 * 1000000)
      ∧ (TaskType.HOURLY = TaskType.INTERVAL_SECONDS →
          ((⟨2, 1, 1, 1, 0, 0, 0⟩ : PyDateTime).toMicros : Int)
            = (cexNow.toMicros : Int) + cfgIntervalSeconds none * 1000000)) :=
  ⟨by decide, by decide, by decide, by decide,
   compute_next_run_strictly_increases cexNow cexNow ⟨2, 1, 1, 1, 0, 0, 0⟩
     TaskType.HOURLY none (by decide) (by decide) (by decide) (by decide)⟩

set_option maxRecDepth 40000 in
/-- C5: for a Daily schedule with an in-range parsed `HH:MM` and a valid
non-None `last_run`, the next run is `last_run`'s date at `HH:MM` when that
instant is strictly after `last_run`, and otherwise exactly that instant
plus one calendar day (86400 s on these naive timestamps); in particular
`2024-01-01T07:00` with `"07:00"` yields `2024-01-02T07:00` and
`2024-01-01T06:00` yields `2024-01-01T07:00`. -/
theorem compute_next_run_daily_spec (now lr : PyDateTime) (cfg : Option ScheduleConfig)
    (hm : Int × Int) (hv : lr.Valid) (ht : configTruthy cfg = true)
    (hp : parseHourMinute (cfgTime cfg) = some hm)
    (hh0 : 0 ≤ hm.1) (hh : hm.1 < 24) (hm0 : 0 ≤ hm.2) (hm60 : hm.2 < 60) :
    (lr.toMicros < (PyDateTime.mk lr.year lr.month lr.day hm.1.toNat hm.2.toNat 0 0).toMicros →
      compute_next_run now TaskType.DAILY cfg (some lr)
        = some ⟨lr.year, lr.month, lr.day, hm.1.toNat, hm.2.toNat, 0, 0⟩)
    ∧ ((PyDateTime.mk lr.year lr.month lr.day hm.1.toNat hm.2.toNat 0 0).toMicros ≤ lr.toMicros →
      compute_next_run now TaskType.DAILY cfg (some lr)
        = pyAddSeconds ⟨lr.year, lr.month, lr.day, hm.1.toNat, hm.2.toNat, 0, 0⟩ 86400
      ∧ Option.map PyDateTime.toMicros (compute_next_run now TaskType.DAILY cfg (some lr))
        = some ((PyDateTime.mk lr.year lr.month lr.day hm.1.toNat hm.2.toNat 0 0).toMicros
            + 86400 * 1000000))
    ∧ compute_next_run cexNow TaskType.DAILY (some cexCfg)
        (some ⟨2024, 1, 1, 7, 0, 0, 0⟩) = some ⟨2024, 1, 2, 7, 0, 0, 0⟩
    ∧ compute_next_run cexNow TaskType.DAILY (some cexCfg)
        (some ⟨2024, 1, 1, 6, 0, 0, 0⟩) = some ⟨2024, 1, 1, 7, 0, 0, 0⟩ := by
  have hrt := replaceTime_of_valid lr hm.1 hm.2 hv hh0 hh hm0 hm60
  have heq := compute_daily_eq now lr cfg ht hm hp _ hrt
  refine ⟨?_, ?_, by decide, by decide⟩
  · intro hlt
    have hle' : pyLe ⟨lr.year, lr.month, lr.day, hm.1.toNat, hm.2.toNat, 0, 0⟩ lr = false :=
      (pyLe_false_iff _ _).mpr hlt
    rw [heq, if_neg (by simp [hle'])]
  · intro hle
    have hle' : pyLe ⟨lr.year, lr.month, lr.day, hm.1.toNat, hm.2.toNat, 0, 0⟩ lr = true :=
      (pyLe_true_iff _ _).mpr hle
    rw [heq, if_pos hle']
    obtain ⟨t', ht', _, _, _⟩ := pyAddSeconds_spec
      ⟨lr.year, lr.month, lr.day, hm.1.toNat, hm.2.toNat, 0, 0⟩ 86400 (by omega)
    have hmic := pyAddSeconds_toMicros _ t' 86400 ht'
    rw [ht']
    exact ⟨rfl, by simp only [Option.map_some']; exact Option.some_inj.mpr (by omega)⟩

set_option maxRecDepth 40000 in
theorem compute_next_run_daily_spec_witness :
    (⟨2024, 1, 1, 7, 0, 0, 0⟩ : PyDateTime).Valid
    ∧ configTruthy (some cexCfg) = true
    ∧ parseHourMinute (cfgTime (some cexCfg)) = some ((7 : Int), (0 : Int))
    ∧ ((0 : Int) ≤ 7 ∧ (7 : Int) < 24 ∧ (0 : Int) ≤ 0 ∧ (0 : Int) < 60)
    ∧ (((⟨2024, 1, 1, 7, 0, 0, 0⟩ : PyDateTime).toMicros
          < (PyDateTime.mk 2024 1 1 (7 : Int).toNat (0 : Int).toNat 0 0).toMicros →
        compute_next_run cexNow TaskType.DAILY (some cexCfg)
            (some ⟨2024, 1, 1, 7, 0, 0, 0⟩)
          = some ⟨2024, 1, 1, (7 : Int).toNat, (0 : Int).toNat, 0, 0⟩)
      ∧ ((PyDateTime.mk 2024 1 1 (7 : Int).toNat (0 : Int).toNat 0 0).toMicros
            ≤ (⟨2024, 1, 1, 7, 0, 0, 0⟩ : PyDateTime).toMicros →
        compute_next_run cexNow TaskType.DAILY (some cexCfg)
            (some ⟨2024, 1, 1, 7, 0, 0, 0⟩)
          = pyAddSeconds ⟨2024, 1, 1, (7 : Int).toNat, (0 : Int).toNat, 0, 0⟩ 86400
        ∧ Option.map PyDateTime.toMicros
            (compute_next_run cexNow TaskType.DAILY (some cexCfg)
              (some ⟨2024, 1, 1, 7, 0, 0, 0⟩))
          = some ((PyDateTime.mk 2024 1 1 (7 : Int).toNat (0 : Int).toNat 0 0).toMicros
              + 86400 * 1000000))
      ∧ compute_next_run cexNow TaskType.DAILY (some cexCfg)
          (some ⟨2024, 1, 1, 7, 0, 0, 0⟩) = some ⟨2024, 1, 2, 7, 0, 0, 0⟩
      ∧ compute_next_run cexNow TaskType.DAILY (some cexCfg)
          (some ⟨2024, 1, 1, 6, 0, 0, 0⟩) = some ⟨2024, 1, 1, 7, 0, 0, 0⟩) :=
  ⟨by decide, by decide, by decide, by decide,
   compute_next_run_daily_spec cexNow ⟨2024, 1, 1, 7, 0, 0, 0⟩ (some cexCfg)
     ((7 : Int), (0 : Int)) (by decide) (by decide) (by decide)
     (by decide) (by decide) (by decide) (by decide)⟩
